import Mathlib

/-!
Verification of the KX Python-Flutter bridge worker.

This file gives a shallow embedding of the Python sources of the
`kx_python_flutter_bridge` repository and proves properties of the embedded
code:

* `src/kx_python_flutter_bridge/jsonrpc_bridge.py`, class `AutoRestartBridge`:
  the supervisor loop `start`, the restart policy `_should_restart`, the
  signal handler `_signal_handler`, the health-monitor loop condition, and
  the discovery scan `_discover_bridge_functions` / `_scan_directory`.
* `flutter_package/kx_python_flutter_bridge/assets/python/legacy/python_bridge_legacy.py`:
  the file-exchange transport loop `watch_for_requests` and `add_numbers`.

Machine integers do not occur in the relevant code paths; Python integers are
modelled by `Nat`/`Int`, wall-clock timestamps by `Int` seconds, and sleep
durations by `Nat` centiseconds.  Python exceptions are modelled by `Except`
or by explicit outcome constructors.  Python sets and dicts that the code
uses are modelled by `List` with membership tests.
-/

namespace KXBridge

/-! ## Supervisor (`AutoRestartBridge`, jsonrpc_bridge.py lines 46-352)

Constants from `AutoRestartBridge.__init__` (lines 49-56). -/

def max_restarts : Nat := 10

def restart_cooldown : Int := 60

/-- The mutable supervisor fields touched by `start` / `_should_restart` /
`_signal_handler`: `self.running`, `self.restart_count`,
`self.last_restart_time` (lines 50-53). -/
structure BridgeState where
  running : Bool
  restart_count : Nat
  last_restart_time : Int
deriving Repr, DecidableEq

/-- `__init__` sets `running = True`, `restart_count = 0`,
`last_restart_time = 0` (lines 50-53). -/
def initState : BridgeState :=
  { running := true, restart_count := 0, last_restart_time := 0 }

/-- `AutoRestartBridge._should_restart` (lines 284-298): deny when
`restart_count >= max_restarts`, deny when
`current_time - last_restart_time < restart_cooldown`, allow otherwise. -/
def should_restart (s : BridgeState) (current_time : Int) : Bool :=
  if max_restarts ≤ s.restart_count then false
  else if current_time - s.last_restart_time < restart_cooldown then false
  else true

/-- How `server.start()` ends inside one iteration of the `while` loop of
`AutoRestartBridge.start` (lines 304-350): a normal return (line 313
returning), a `KeyboardInterrupt` (line 332), or any other exception
(line 337). -/
inductive ServerEnd
  | normal
  | keyboardInterrupt
  | error
deriving Repr, DecidableEq

/-- The environment of one iteration of the supervisor loop:
`tstart` is the value of `time.time()` stored into `last_restart_time` at the
top of the iteration (line 306); `runningAfter` is the value of the
`self.running` flag when the loop reads it after `server.start()` returns
(lines 316 and 341) - the signal handler may have cleared it asynchronously;
`serverEnd` is how `server.start()` ended; `tend` is the value of
`time.time()` read inside `_should_restart` (line 286). -/
structure IterEnv where
  tstart : Int
  runningAfter : Bool
  serverEnd : ServerEnd
  tend : Int
deriving Repr

/-- The observable effect of one iteration of the supervisor loop body:
the state afterwards, whether the loop continues (a restart, line 324/347)
or breaks, whether a restart was performed, whether `_should_restart` was
called at all, and the number of seconds slept by the progressive delay
(lines 323 and 346), zero when no restart happens. -/
structure IterResult where
  state : BridgeState
  continues : Bool
  restarted : Bool
  evaluatedPolicy : Bool
  sleep : Nat
deriving Repr

/-- The decision made after `server.start()` has come back, common to the
normal-return branch (lines 316-330) and the exception branch
(lines 341-350) of `AutoRestartBridge.start`; `s2` already holds the
`running` flag as read after the return.  When still running, call
`_should_restart` (318/341); on allow, increment `restart_count` (319/342),
sleep `min(restart_count * 2, 30)` seconds - computed after the increment
(323/346) - and continue the loop (324/347); on deny, break (327/350).
When the flag is clear, break without consulting the policy: line 330
directly, or the short-circuit of `self.running and self._should_restart()`
at line 341. -/
def afterReturn (s2 : BridgeState) (tend : Int) : IterResult :=
  if s2.running then
    if should_restart s2 tend then
      let s3 : BridgeState := { s2 with restart_count := s2.restart_count + 1 }
      { state := s3, continues := true, restarted := true,
        evaluatedPolicy := true, sleep := min (s3.restart_count * 2) 30 }
    else
      { state := s2, continues := false, restarted := false,
        evaluatedPolicy := true, sleep := 0 }
  else
    { state := s2, continues := false, restarted := false,
      evaluatedPolicy := false, sleep := 0 }

/-- One iteration of the body of the `while self.running` loop of
`AutoRestartBridge.start` (lines 304-350): store `time.time()` into
`last_restart_time` at the top (306), run the server; on a normal return or
a generic exception, decide per `afterReturn` with the `running` flag as
read after the return; on `KeyboardInterrupt`, clear `running` and break
(332-335) without consulting the policy. -/
def startIter (s : BridgeState) (env : IterEnv) : IterResult :=
  match env.serverEnd with
  | .normal =>
    afterReturn { s with last_restart_time := env.tstart,
                         running := env.runningAfter } env.tend
  | .keyboardInterrupt =>
    { state := { s with last_restart_time := env.tstart, running := false },
      continues := false, restarted := false, evaluatedPolicy := false,
      sleep := 0 }
  | .error =>
    afterReturn { s with last_restart_time := env.tstart,
                         running := env.runningAfter } env.tend

/-- The whole `while self.running` loop of `AutoRestartBridge.start`
(line 304), driven by a list of iteration environments: the loop runs an
iteration while the flag is set and the previous iteration continued. -/
def runTrace (s : BridgeState) : List IterEnv → BridgeState
  | [] => s
  | env :: rest =>
    if s.running then
      if (startIter s env).continues then runTrace (startIter s env).state rest
      else (startIter s env).state
    else s

/-- `AutoRestartBridge._signal_handler` (lines 279-282): set
`self.running = False`. -/
def signal_handler (s : BridgeState) : BridgeState :=
  { s with running := false }

/-- The loop condition of the health monitor thread
(`_start_health_monitor`, line 231): the `while self.running` loop makes
another iteration exactly when the flag is still set. -/
def health_monitor_continues (s : BridgeState) : Bool :=
  s.running

/-! ## File-exchange transport (`python_bridge_legacy.py`, lines 14-96) -/

/-- An argument value in the `args` array of a request artifact, as far as
`add_numbers` can observe it: a value on which Python `float(x)` succeeds
(JSON numbers and numeric strings), carried as its numeric value, or a value
on which `float(x)` raises. -/
inductive PyArg
  | num (x : Int)
  | nonNumeric
deriving Repr, DecidableEq

/-- Python `float(x)` (lines 9-10): `some` on success, `none` when the
conversion raises. -/
def toFloat : PyArg → Option Int
  | .num x => some x
  | .nonNumeric => none

/-- `add_numbers` (lines 7-11) applied as `add_numbers(*args)` (line 66):
raises `TypeError` unless exactly two positional arguments are supplied,
raises inside `float()` on a non-numeric argument, and otherwise returns
the sum. -/
def add_numbers : List PyArg → Except String Int
  | [a, b] =>
    match toFloat a, toFloat b with
    | some x, some y => .ok (x + y)
    | _, _ => .error "could not convert argument to float"
  | _ => .error "TypeError: add_numbers takes 2 positional arguments"

/-- The content of the request artifact `flutter_request.json`, as the loop
body classifies it: non-empty whitespace (positive size but `strip()` gives
an empty string, line 49), text on which `json.loads` raises (line 52), a
JSON document that parses but is not an object (so `request.get` raises
`AttributeError`, line 60), or a JSON object read as
`{function, args, request_id}` via `.get` (lines 60-62), each field absent
when the key is missing. -/
inductive ReqFile
  | whitespace
  | invalidJson
  | jsonNonDict
  | dict (function : Option String) (args : List PyArg)
      (request_id : Option String)
deriving Repr, DecidableEq

/-- A result value in a response artifact: `add_numbers` produces a number,
every other path a string. -/
inductive RVal
  | num (x : Int)
  | str (s : String)
deriving Repr, DecidableEq

/-- A response artifact `python_response.json`:
`{result, request_id, success}` (lines 71 and 87-91). -/
structure Response where
  result : RVal
  request_id : Option String
  success : Bool
deriving Repr, DecidableEq

/-- The state carried across iterations of the `while True` loop of
`watch_for_requests`: the request artifact (`none` when the file is absent
or has size zero, line 39), the response artifact last written (`none`
before the first write), and the binding status of the local variable
`request_id` - Python locals persist across loop iterations, so
`"request_id" in locals()` (line 86) is `some rid` once any earlier
iteration executed line 62. -/
structure FileState where
  reqFile : Option ReqFile
  respFile : Option Response
  boundRid : Option (Option String)
deriving Repr, DecidableEq

/-- What one iteration of the poll loop did. -/
inductive Outcome
  | idle
  | emptyContent
  | invalidDeleted
  | preBindError (wrote : Option Response)
  | dispatchError (r : Response)
  | ok (r : Response)
deriving Repr, DecidableEq

/-- The message of the `AttributeError` raised by `request.get` on a parsed
non-object document (modelled message text). -/
def attrErrMsg : String := "AttributeError: request has no attribute get"

/-- Python `f"Unknown function: {function_name}"` (line 68): `None` prints
as the four-letter word None. -/
def unknownMsg (fn : Option String) : String :=
  "Unknown function: " ++ (match fn with | some f => f | none => "None")

/-- One iteration of the body of the `while True` loop of
`watch_for_requests` (lines 36-96), translated branch by branch.
No artifact, or one of size zero: nothing happens (line 39 guard false).
Whitespace content: `continue` at line 50, artifact kept.
Invalid JSON: `json.JSONDecodeError` caught at line 52, artifact deleted
(line 56), `continue`.
Parsed non-object: `request.get("function")` raises `AttributeError`,
caught by the outer handler (line 82), which writes an error response only
when `request_id` is already bound in locals (line 86) - necessarily with
that leftover value - and never deletes the artifact.
A JSON object: bind `function`, `args`, `request_id` (lines 60-62); when
`function == "add_numbers"`, dispatch: on success write
`{result, request_id, success: True}` (lines 71-75) and delete the artifact
(line 80); when `add_numbers` raises, the outer handler writes
`{result: str(e), request_id, success: False}` (lines 86-93) and the
artifact is NOT deleted (line 80 is never reached); any other function name
yields the string result of line 68 with `success: True`, written and the
artifact deleted like the success path. -/
def watchStep (s : FileState) : FileState × Outcome :=
  match s.reqFile with
  | none => (s, .idle)
  | some .whitespace => (s, .emptyContent)
  | some .invalidJson => ({ s with reqFile := none }, .invalidDeleted)
  | some .jsonNonDict =>
    match s.boundRid with
    | none => (s, .preBindError none)
    | some rid =>
      let r : Response :=
        { result := .str attrErrMsg, request_id := rid, success := false }
      ({ s with respFile := some r }, .preBindError (some r))
  | some (.dict fn args rid) =>
    let s1 : FileState := { s with boundRid := some rid }
    if fn = some "add_numbers" then
      match add_numbers args with
      | .ok v =>
        let r : Response :=
          { result := .num v, request_id := rid, success := true }
        ({ s1 with respFile := some r, reqFile := none }, .ok r)
      | .error e =>
        let r : Response :=
          { result := .str e, request_id := rid, success := false }
        ({ s1 with respFile := some r }, .dispatchError r)
    else
      let r : Response :=
        { result := .str (unknownMsg fn), request_id := rid, success := true }
      ({ s1 with respFile := some r, reqFile := none }, .ok r)

/-- Total time slept during one iteration, in centiseconds: the detection
sleep `time.sleep(0.05)` (line 43) runs whenever an artifact of positive
size is present, and the poll sleep `time.sleep(0.1)` (line 96) runs at the
end of the body - but NOT on the `continue` paths of lines 50 and 57,
which jump straight back to the loop head. -/
def outcomeSleep : Outcome → Nat
  | .idle => 10
  | .emptyContent => 5
  | .invalidDeleted => 5
  | .preBindError _ => 15
  | .dispatchError _ => 15
  | .ok _ => 15

/-- The poll-interval sleep of line 96 alone, in centiseconds: 10 when the
iteration reaches the end of the body, 0 on the `continue` paths. -/
def endSleep : Outcome → Nat
  | .emptyContent => 0
  | .invalidDeleted => 0
  | _ => 10

/-! ## Discovery scan (`_discover_bridge_functions` / `_scan_directory`,
jsonrpc_bridge.py lines 144-225) -/

/-- A filesystem path as its list of components; the last component of a
file path is the file name with its extension. -/
abbrev PyPath := List String

/-- Whether the first character list is a prefix of the second, by
structural recursion (the building block of the Python string tests the
scan uses). -/
def listIsPre : List Char → List Char → Bool
  | [], _ => true
  | _ :: _, [] => false
  | p :: ps, c :: cs => p == c && listIsPre ps cs

/-- Python `pat in s` on character lists: some suffix of `s` starts with
`pat`. -/
def listContains (pat : List Char) : List Char → Bool
  | [] => pat.isEmpty
  | c :: cs => listIsPre pat (c :: cs) || listContains pat cs

/-- Python `s.startswith(p)`. -/
def pyStartsWith (s p : String) : Bool := listIsPre p.data s.data

/-- Python `s.endswith(p)` (the `suffix` test of line 196 amounts to this
for the names the enumeration yields). -/
def pyEndsWith (s p : String) : Bool := listIsPre p.data.reverse s.data.reverse

/-- Python `pat in s`. -/
def containsSub (s pat : String) : Bool := listContains pat.data s.data

/-- ASCII lowering of one character, as Python `str.lower` acts on the
ASCII names involved here. -/
def lowerChar (c : Char) : Char :=
  if 65 ≤ c.toNat && c.toNat ≤ 90 then Char.ofNat (c.toNat + 32) else c

/-- Python `s.lower()` on ASCII text. -/
def pyToLower (s : String) : String := String.mk (s.data.map lowerChar)

/-- Joining with a separator: Python `sep.join(parts)` and the path
rendering `str(py_file)`. -/
def joinWith (sep : String) : List String → String
  | [] => ""
  | [x] => x
  | x :: y :: xs => x ++ sep ++ joinWith sep (y :: xs)

/-- `str(py_file)`: the path rendered with separators, used by the
substring tests of lines 194-195. -/
def pathStr (p : PyPath) : String := joinWith "/" p

def fileName (p : PyPath) : String := p.getLastD ""

/-- `relative_path.stem` for a name ending in the three characters of the
Python extension (line 203): the name without that extension. -/
def stem (name : String) : String :=
  String.mk (name.data.take (name.data.length - 3))

/-- The skip test of `_scan_directory` (lines 190-197): skip when the name
starts with a double underscore, equals the entry file name, contains the
lower-case host framework word case-insensitively, when the full path
contains the capitalised host framework word or the ephemeral marker, or
when the suffix is not the Python extension. -/
def skipFile (p : PyPath) : Bool :=
  pyStartsWith (fileName p) "__" ||
  fileName p == "jsonrpc_bridge.py" ||
  containsSub (pyToLower (fileName p)) "flutter" ||
  containsSub (pathStr p) "Flutter" ||
  containsSub (pathStr p) "ephemeral" ||
  !(pyEndsWith (fileName p) ".py")

/-- The exclusion rule exactly as the specification words it, for the
refinement comparison of the scan: exclude names starting with a double
underscore, the entry file `jsonrpc_bridge.py`, names containing the
lower-case host framework word case-insensitively, and paths containing
the capitalised host framework word or the ephemeral marker. -/
def skipFileSpec (p : PyPath) : Bool :=
  pyStartsWith (fileName p) "__" ||
  fileName p == "jsonrpc_bridge.py" ||
  containsSub (pyToLower (fileName p)) "flutter" ||
  containsSub (pathStr p) "Flutter" ||
  containsSub (pathStr p) "ephemeral"

/-- `py_file.relative_to(directory)` (line 202) for a file enumerated by
`directory.rglob`, hence lying under `directory`: drop the root components. -/
def relativeTo (root file : PyPath) : PyPath := file.drop root.length

/-- The derived module identity (lines 202-204):
`".".join(list(relative_path.parts[:-1]) + [relative_path.stem])`. -/
def moduleName (root file : PyPath) : String :=
  joinWith "." ((relativeTo root file).dropLast ++ [stem (fileName file)])

/-- The accumulator of a scan: `self.discovered_modules` (the processed
set, a Python set modelled as a list with membership) and the running
`discovered_count` of the directory. -/
structure ScanState where
  discovered : List String
  count : Nat
deriving Repr, DecidableEq

/-- Processing of a single enumerated file inside the `for py_file` loop of
`_scan_directory` (lines 188-220): skip per lines 190-198; compute the
module identity (202-204); `continue` when already discovered (206-207);
otherwise attempt the import (212-215): `loadOk f = true` models a spec
with a loader whose `exec_module` returns normally, upon which the identity
is added to the processed set and the count incremented (216-217);
`loadOk f = false` models either a missing spec/loader (the `if` of
line 213 failing) or an exception during loading, caught per file by the
handler of line 219, leaving the accumulator untouched either way. -/
def scanFile (loadOk : PyPath → Bool) (root : PyPath)
    (st : ScanState) (f : PyPath) : ScanState :=
  if skipFile f then st
  else if st.discovered.contains (moduleName root f) then st
  else if loadOk f then
    { discovered := st.discovered ++ [moduleName root f], count := st.count + 1 }
  else st

/-- `AutoRestartBridge._scan_directory` (lines 178-225) over the list of
files that `directory.rglob` enumerates, given the processed set inherited
from earlier scans; returns the count of newly loaded units and the updated
processed set. -/
def scan_directory (loadOk : PyPath → Bool) (root : PyPath)
    (files : List PyPath) (disc : List String) : Nat × List String :=
  let st := files.foldl (scanFile loadOk root) { discovered := disc, count := 0 }
  (st.count, st.discovered)

/-- The search roots of `_discover_bridge_functions` (lines 152-159):
the project root and five of its subdirectories. -/
def search_paths (project_root : PyPath) : List PyPath :=
  [project_root,
   project_root ++ ["my_py_codes"],
   project_root ++ ["python_modules"],
   project_root ++ ["src"],
   project_root ++ ["lib", "python"],
   project_root ++ ["scripts"]]

/-- The scanning phase of `_discover_bridge_functions` (lines 161-165):
fold over the search roots, scanning each existing one with the shared
processed set, summing the per-directory counts. `filesUnder r` is the
list of files `r.rglob` enumerates. -/
def discover (loadOk : PyPath → Bool) (pathExists : PyPath → Bool)
    (filesUnder : PyPath → List PyPath) (project_root : PyPath) :
    Nat × List String :=
  (search_paths project_root).foldl
    (fun acc r =>
      if pathExists r then
        let res := scan_directory loadOk r (filesUnder r) acc.2
        (acc.1 + res.1, res.2)
      else acc)
    (0, [])

/-- The report at the end of `_discover_bridge_functions` (lines 167-176):
a warning is emitted exactly when the registry holds zero functions; the
method returns normally either way (it raises nothing and has no failure
return). -/
def discoveryWarns (functionCount : Nat) : Bool := functionCount == 0

/-! ## Helper lemmas -/

lemma should_restart_iff (s : BridgeState) (t : Int) :
    should_restart s t = true ↔
      s.restart_count < max_restarts ∧
        restart_cooldown ≤ t - s.last_restart_time := by
  unfold should_restart
  split_ifs with h1 h2 <;> simp <;> omega

lemma afterReturn_allow (s2 : BridgeState) (t : Int)
    (hr : s2.running = true) (ha : should_restart s2 t = true) :
    afterReturn s2 t =
      { state := { s2 with restart_count := s2.restart_count + 1 },
        continues := true, restarted := true, evaluatedPolicy := true,
        sleep := min ((s2.restart_count + 1) * 2) 30 } := by
  unfold afterReturn
  rw [hr, ha]
  simp

lemma afterReturn_deny (s2 : BridgeState) (t : Int)
    (hr : s2.running = true) (ha : should_restart s2 t = false) :
    afterReturn s2 t =
      { state := s2, continues := false, restarted := false,
        evaluatedPolicy := true, sleep := 0 } := by
  unfold afterReturn
  rw [hr, ha]
  simp

lemma afterReturn_stopped (s2 : BridgeState) (t : Int)
    (hr : s2.running = false) :
    afterReturn s2 t =
      { state := s2, continues := false, restarted := false,
        evaluatedPolicy := false, sleep := 0 } := by
  unfold afterReturn
  rw [hr]
  simp

lemma afterReturn_count_mono (s2 : BridgeState) (t : Int) :
    s2.restart_count ≤ (afterReturn s2 t).state.restart_count := by
  rcases hr : s2.running with _ | _
  · rw [afterReturn_stopped s2 t hr]
  · rcases ha : should_restart s2 t with _ | _
    · rw [afterReturn_deny s2 t hr ha]
    · rw [afterReturn_allow s2 t hr ha]
      exact Nat.le_succ _

lemma afterReturn_count_le (s2 : BridgeState) (t : Int)
    (h : s2.restart_count ≤ max_restarts) :
    (afterReturn s2 t).state.restart_count ≤ max_restarts := by
  rcases hr : s2.running with _ | _
  · rw [afterReturn_stopped s2 t hr]; exact h
  · rcases ha : should_restart s2 t with _ | _
    · rw [afterReturn_deny s2 t hr ha]; exact h
    · rw [afterReturn_allow s2 t hr ha]
      have := (should_restart_iff s2 t).mp ha
      exact this.1

lemma afterReturn_denied (s2 : BridgeState) (t : Int)
    (h : max_restarts ≤ s2.restart_count) :
    (afterReturn s2 t).restarted = false ∧
      (afterReturn s2 t).continues = false ∧
      (afterReturn s2 t).state.restart_count = s2.restart_count := by
  rcases hr : s2.running with _ | _
  · rw [afterReturn_stopped s2 t hr]
    exact ⟨rfl, rfl, rfl⟩
  · have ha : should_restart s2 t = false := by
      rcases hb : should_restart s2 t with _ | _
      · rfl
      · have := (should_restart_iff s2 t).mp hb
        omega
    rw [afterReturn_deny s2 t hr ha]
    exact ⟨rfl, rfl, rfl⟩

lemma startIter_count_mono (s : BridgeState) (env : IterEnv) :
    s.restart_count ≤ (startIter s env).state.restart_count := by
  unfold startIter
  cases env.serverEnd <;> dsimp only <;>
    first
      | exact le_rfl
      | exact afterReturn_count_mono
          { s with last_restart_time := env.tstart,
                   running := env.runningAfter } env.tend

lemma startIter_count_le (s : BridgeState) (env : IterEnv)
    (h : s.restart_count ≤ max_restarts) :
    (startIter s env).state.restart_count ≤ max_restarts := by
  unfold startIter
  cases env.serverEnd <;> dsimp only <;>
    first
      | exact h
      | exact afterReturn_count_le
          { s with last_restart_time := env.tstart,
                   running := env.runningAfter } env.tend h

lemma afterReturn_last (s2 : BridgeState) (t : Int) :
    (afterReturn s2 t).state.last_restart_time = s2.last_restart_time := by
  rcases hr : s2.running with _ | _
  · rw [afterReturn_stopped s2 t hr]
  · rcases ha : should_restart s2 t with _ | _
    · rw [afterReturn_deny s2 t hr ha]
    · rw [afterReturn_allow s2 t hr ha]

lemma startIter_last (s : BridgeState) (env : IterEnv) :
    (startIter s env).state.last_restart_time = env.tstart := by
  unfold startIter
  cases env.serverEnd <;> dsimp only <;>
    first
      | rfl
      | exact afterReturn_last
          { s with last_restart_time := env.tstart,
                   running := env.runningAfter } env.tend

lemma startIter_denied (s : BridgeState) (env : IterEnv)
    (h : max_restarts ≤ s.restart_count) :
    (startIter s env).restarted = false ∧ (startIter s env).continues = false ∧
      (startIter s env).state.restart_count = s.restart_count := by
  unfold startIter
  cases env.serverEnd <;> dsimp only <;>
    first
      | exact ⟨rfl, rfl, rfl⟩
      | exact afterReturn_denied
          { s with last_restart_time := env.tstart,
                   running := env.runningAfter } env.tend h

lemma runTrace_count_mono (envs : List IterEnv) (s : BridgeState) :
    s.restart_count ≤ (runTrace s envs).restart_count := by
  induction envs generalizing s with
  | nil => exact le_rfl
  | cons env rest ih =>
    unfold runTrace
    split
    · split
      · exact le_trans (startIter_count_mono s env) (ih _)
      · exact startIter_count_mono s env
    · exact le_rfl

lemma runTrace_count_le (envs : List IterEnv) (s : BridgeState)
    (h : s.restart_count ≤ max_restarts) :
    (runTrace s envs).restart_count ≤ max_restarts := by
  induction envs generalizing s with
  | nil => exact h
  | cons env rest ih =>
    unfold runTrace
    split
    · split
      · exact ih _ (startIter_count_le s env h)
      · exact startIter_count_le s env h
    · exact h

/-! ## Claim theorems: Supervisor -/

/-- C1: whenever `server.start()` returns (normally or by an exception
other than `KeyboardInterrupt`) while the `running` flag is still set, the
supervisor evaluates the restart policy; it denies restart when
`restart_count ≥ max_restarts` (with `max_restarts = 10`) or when the
elapsed time since `last_restart_time` (set to this iteration's start) is
under the cooldown of 60 seconds, in which case the loop exits with the
count unchanged; otherwise it increments `restart_count`, sleeps
`min(restart_count * 2, 30)` seconds computed after the increment, and
continues the loop (restarting the server). -/
theorem restart_policy_on_return (s : BridgeState) (env : IterEnv)
    (hrun : env.runningAfter = true)
    (hend : env.serverEnd ≠ ServerEnd.keyboardInterrupt) :
    max_restarts = 10 ∧ restart_cooldown = 60 ∧
    (startIter s env).evaluatedPolicy = true ∧
    ((max_restarts ≤ s.restart_count ∨ env.tend - env.tstart < restart_cooldown) →
      (startIter s env).restarted = false ∧ (startIter s env).continues = false ∧
      (startIter s env).state.restart_count = s.restart_count) ∧
    ((s.restart_count < max_restarts ∧ restart_cooldown ≤ env.tend - env.tstart) →
      (startIter s env).restarted = true ∧ (startIter s env).continues = true ∧
      (startIter s env).state.restart_count = s.restart_count + 1 ∧
      (startIter s env).sleep = min ((s.restart_count + 1) * 2) 30) := by
  set s2 : BridgeState :=
    { s with last_restart_time := env.tstart, running := env.runningAfter }
    with hs2
  have hr2 : s2.running = true := by rw [hs2]; exact hrun
  have hmain : startIter s env = afterReturn s2 env.tend := by
    unfold startIter
    cases h : env.serverEnd
    · rfl
    · exact absurd h hend
    · rfl
  refine ⟨rfl, rfl, ?_, ?_, ?_⟩
  · rw [hmain]
    rcases ha : should_restart s2 env.tend with _ | _
    · rw [afterReturn_deny s2 env.tend hr2 ha]
    · rw [afterReturn_allow s2 env.tend hr2 ha]
  · intro hd
    have ha : should_restart s2 env.tend = false := by
      rcases hb : should_restart s2 env.tend with _ | _
      · rfl
      · have := (should_restart_iff s2 env.tend).mp hb
        rw [hs2] at this
        simp at this
        omega
    rw [hmain, afterReturn_deny s2 env.tend hr2 ha]
    exact ⟨rfl, rfl, rfl⟩
  · intro hallow
    have ha : should_restart s2 env.tend = true := by
      rw [should_restart_iff, hs2]
      simp
      omega
    rw [hmain, afterReturn_allow s2 env.tend hr2 ha]
    exact ⟨rfl, rfl, rfl, rfl⟩

/-- Witness for C1 at a concrete input: from the initial state, a server
return at time 200 after a start at time 100 with the flag still set is
restarted with `restart_count = 1` and a 2-second backoff. -/
theorem restart_policy_on_return_witness :
    (startIter initState ⟨100, true, ServerEnd.normal, 200⟩).restarted = true ∧
    (startIter initState ⟨100, true, ServerEnd.normal, 200⟩).sleep = 2 := by
  have h := restart_policy_on_return initState ⟨100, true, ServerEnd.normal, 200⟩
    rfl (by decide)
  have h2 := h.2.2.2.2 (by constructor <;> decide)
  exact ⟨h2.1, by rw [h2.2.2.2]; decide⟩

/-- C2: `restart_count` never decreases across an iteration of the
supervisor loop and is never reset (each iteration rewrites
`last_restart_time` to the iteration's start time but leaves the counter
monotone); once `restart_count ≥ max_restarts` no iteration restarts and
the loop breaks; along any whole run of `start` from the initial state the
counter never exceeds `max_restarts`. -/
theorem restart_count_invariant :
    (∀ s env, s.restart_count ≤ (startIter s env).state.restart_count) ∧
    (∀ s env, (startIter s env).state.last_restart_time = env.tstart) ∧
    (∀ s env, max_restarts ≤ s.restart_count →
      (startIter s env).restarted = false ∧ (startIter s env).continues = false ∧
      (startIter s env).state.restart_count = s.restart_count) ∧
    (∀ s envs, s.restart_count ≤ (runTrace s envs).restart_count) ∧
    (∀ envs, (runTrace initState envs).restart_count ≤ max_restarts) := by
  refine ⟨startIter_count_mono, startIter_last, startIter_denied,
    fun s envs => runTrace_count_mono envs s,
    fun envs => runTrace_count_le envs initState (by simp [initState, max_restarts])⟩

/-- Witness for C2 at concrete inputs: a state with the counter at the
maximum is denied, and one concrete run keeps the counter within bound. -/
theorem restart_count_invariant_witness :
    (startIter ⟨true, 10, 0⟩ ⟨0, true, ServerEnd.normal, 1000⟩).restarted = false ∧
    (runTrace initState [⟨0, true, ServerEnd.normal, 1000⟩]).restart_count ≤
      max_restarts := by
  have h := restart_count_invariant
  exact ⟨(h.2.2.1 ⟨true, 10, 0⟩ ⟨0, true, ServerEnd.normal, 1000⟩ (by decide)).1,
    h.2.2.2.2 [⟨0, true, ServerEnd.normal, 1000⟩]⟩

/-- C8: the signal handler clears the `running` flag and the health-monitor
loop condition then fails; once the flag is observed clear after
`server.start()` returns, the supervisor never evaluates the restart
policy, performs no restart, and breaks out of its loop (likewise on
`KeyboardInterrupt`, which itself clears the flag); with the flag clear the
supervisor loop performs no further iteration at all. -/
theorem graceful_shutdown :
    (∀ s, (signal_handler s).running = false ∧
      health_monitor_continues (signal_handler s) = false) ∧
    (∀ s env, env.runningAfter = false →
      env.serverEnd ≠ ServerEnd.keyboardInterrupt →
      (startIter s env).evaluatedPolicy = false ∧
      (startIter s env).restarted = false ∧
      (startIter s env).continues = false ∧
      (startIter s env).state.restart_count = s.restart_count ∧
      (startIter s env).state.running = false) ∧
    (∀ s env, env.serverEnd = ServerEnd.keyboardInterrupt →
      (startIter s env).evaluatedPolicy = false ∧
      (startIter s env).continues = false ∧
      (startIter s env).state.running = false) ∧
    (∀ s, s.running = false → ∀ envs, runTrace s envs = s) := by
  refine ⟨fun s => ⟨rfl, rfl⟩, ?_, ?_, ?_⟩
  · intro s env hrun hend
    have hmain : startIter s env =
        afterReturn { s with last_restart_time := env.tstart,
                             running := env.runningAfter } env.tend := by
      unfold startIter
      cases h : env.serverEnd
      · rfl
      · exact absurd h hend
      · rfl
    rw [hmain, afterReturn_stopped _ _ (by simp [hrun])]
    exact ⟨rfl, rfl, rfl, rfl, by simp [hrun]⟩
  · intro s env hend
    unfold startIter
    rw [hend]
    exact ⟨rfl, rfl, rfl⟩
  · intro s hrun envs
    cases envs <;> simp [runTrace, hrun]

/-- Witness for C8 at a concrete input: after the handler runs on the
initial state, the monitor stops, a normal server return is not restarted,
and the loop makes no iteration. -/
theorem graceful_shutdown_witness :
    health_monitor_continues (signal_handler initState) = false ∧
    (startIter initState ⟨0, false, ServerEnd.normal, 1000⟩).restarted = false ∧
    runTrace (signal_handler initState) [⟨0, false, ServerEnd.normal, 1000⟩] =
      signal_handler initState := by
  have h := graceful_shutdown
  exact ⟨(h.1 initState).2,
    (h.2.1 initState ⟨0, false, ServerEnd.normal, 1000⟩ rfl (by decide)).2.1,
    h.2.2.2 (signal_handler initState) rfl [⟨0, false, ServerEnd.normal, 1000⟩]⟩

/-! ## Claim theorems: file-exchange transport -/

/-- C4: an iteration that observes a complete request object
`{function: add_numbers, args, request_id}` and dispatches it successfully
writes a response artifact holding exactly the result, the request's
`request_id` echoed verbatim, and `success: true`, then deletes the consumed
request artifact; an artifact whose content fails to parse as JSON is
deleted and skipped with the loop state otherwise untouched (the loop does
not terminate - the step is total and the next iteration proceeds); and
sleeping per iteration is bounded and sub-second: at most 15 centiseconds
in total, with the end-of-body poll sleep of line 96 being exactly
10 centiseconds (0.1 s) whenever it is reached and skipped on the two
`continue` paths. -/
theorem file_transport_roundtrip :
    (∀ (resp : Option Response) (brid : Option (Option String))
        (args : List PyArg) (rid : Option String) (v : Int),
      add_numbers args = Except.ok v →
      watchStep ⟨some (ReqFile.dict (some "add_numbers") args rid), resp, brid⟩ =
        (⟨none, some ⟨RVal.num v, rid, true⟩, some rid⟩,
         Outcome.ok ⟨RVal.num v, rid, true⟩)) ∧
    (∀ (resp : Option Response) (brid : Option (Option String)),
      watchStep ⟨some ReqFile.invalidJson, resp, brid⟩ =
        (⟨none, resp, brid⟩, Outcome.invalidDeleted)) ∧
    (∀ o, outcomeSleep o ≤ 15) ∧
    (∀ o, endSleep o = 10 ∨ endSleep o = 0) := by
  refine ⟨?_, ?_, ?_, ?_⟩
  · intro resp brid args rid v hok
    simp [watchStep, hok]
  · intro resp brid
    rfl
  · intro o
    cases o <;> simp [outcomeSleep]
  · intro o
    cases o <;> simp [endSleep]

/-- Witness for C4 at a concrete input: the request
`{function: add_numbers, args: [2, 3], request_id: r9}` yields the
response `{result: 5, request_id: r9, success: true}` and the artifact is
consumed. -/
theorem file_transport_roundtrip_witness :
    watchStep ⟨some (ReqFile.dict (some "add_numbers")
        [PyArg.num 2, PyArg.num 3] (some "r9")), none, none⟩ =
      (⟨none, some ⟨RVal.num 5, some "r9", true⟩, some (some "r9")⟩,
       Outcome.ok ⟨RVal.num 5, some "r9", true⟩) :=
  file_transport_roundtrip.1 none none [PyArg.num 2, PyArg.num 3]
    (some "r9") 5 rfl

/-- C3 counterexample: a request artifact whose content parses as JSON but
is not an object (for example the text of a two-element array) makes
`request.get` raise before `request_id` is bound; on the first iteration of
the loop the outer handler then writes nothing at all, so this failed call
completes with no `success:false` artifact - refuting the claim that every
processing failure yields one. -/
theorem failed_call_without_artifact :
    (watchStep ⟨some ReqFile.jsonNonDict, none, none⟩).2 =
        Outcome.preBindError none ∧
      (watchStep ⟨some ReqFile.jsonNonDict, none, none⟩).1.respFile = none :=
  ⟨rfl, rfl⟩

/-- C3 amended: every call that fails during dispatch after the request has
been parsed and `request_id` bound writes a response artifact with
`success: false` and the failing request's `request_id`; failures that hit
before `request_id` is bound in the iteration may write nothing (or only a
stale-id artifact). -/
theorem dispatch_failure_writes_error_artifact :
    ∀ (resp : Option Response) (brid : Option (Option String))
      (args : List PyArg) (rid : Option String) (e : String),
      add_numbers args = Except.error e →
      watchStep ⟨some (ReqFile.dict (some "add_numbers") args rid), resp, brid⟩ =
        (⟨some (ReqFile.dict (some "add_numbers") args rid),
          some ⟨RVal.str e, rid, false⟩, some rid⟩,
         Outcome.dispatchError ⟨RVal.str e, rid, false⟩) := by
  intro resp brid args rid e herr
  simp [watchStep, herr]

/-- Witness for the amended C3 at a concrete input: a one-argument call to
`add_numbers` raises and the artifact `{result, request_id: r1,
success: false}` is written. -/
theorem dispatch_failure_writes_error_artifact_witness :
    watchStep ⟨some (ReqFile.dict (some "add_numbers") [PyArg.num 1]
        (some "r1")), none, none⟩ =
      (⟨some (ReqFile.dict (some "add_numbers") [PyArg.num 1] (some "r1")),
        some ⟨RVal.str "TypeError: add_numbers takes 2 positional arguments",
          some "r1", false⟩, some (some "r1")⟩,
       Outcome.dispatchError
         ⟨RVal.str "TypeError: add_numbers takes 2 positional arguments",
          some "r1", false⟩) :=
  dispatch_failure_writes_error_artifact none none [PyArg.num 1]
    (some "r1") _ rfl

/-- C5 counterexample: a request naming the unregistered function
`multiply` is answered with `success: true` (its result being the string
starting Unknown function), not with a method-not-found error - refuting
the claim that such a request is not reported as a success. -/
theorem unknown_function_reported_as_success :
    (watchStep ⟨some (ReqFile.dict (some "multiply") [] (some "id7")),
        none, none⟩).2 =
      Outcome.ok ⟨RVal.str "Unknown function: multiply", some "id7", true⟩ :=
  rfl

/-- C5 amended: in the file-exchange binding, a request naming any function
other than `add_numbers` never crashes the serving loop: it is answered
normally, but as a `success: true` response whose result is the string
Unknown function followed by the name, and the request artifact is
consumed. -/
theorem unknown_function_response :
    ∀ (resp : Option Response) (brid : Option (Option String))
      (fn : Option String) (args : List PyArg) (rid : Option String),
      fn ≠ some "add_numbers" →
      watchStep ⟨some (ReqFile.dict fn args rid), resp, brid⟩ =
        (⟨none, some ⟨RVal.str (unknownMsg fn), rid, true⟩, some rid⟩,
         Outcome.ok ⟨RVal.str (unknownMsg fn), rid, true⟩) := by
  intro resp brid fn args rid hfn
  simp [watchStep, hfn]

/-- Witness for the amended C5 at a concrete input. -/
theorem unknown_function_response_witness :
    watchStep ⟨some (ReqFile.dict (some "multiply") [] (some "id7")),
        none, none⟩ =
      (⟨none, some ⟨RVal.str "Unknown function: multiply", some "id7", true⟩,
        some (some "id7")⟩,
       Outcome.ok ⟨RVal.str "Unknown function: multiply", some "id7", true⟩) :=
  unknown_function_response none none (some "multiply") [] (some "id7")
    (by simp)

/-- C9: when the target raises during dispatch after a successful parse,
the request artifact is not deleted, so the very next iteration observes
the identical artifact and reproduces the identical error outcome (the
request is re-dispatched forever); a failure before `request_id` is bound
in the iteration writes no artifact at all when no request was ever
processed, and otherwise writes an error artifact carrying the leftover
`request_id`; and the only way the leftover binding changes is by
processing a parsed request object, whose `request_id` it then holds. -/
theorem undeleted_request_and_stale_id :
    (∀ (resp : Option Response) (brid : Option (Option String))
        (args : List PyArg) (rid : Option String) (e : String),
      add_numbers args = Except.error e →
      (watchStep ⟨some (ReqFile.dict (some "add_numbers") args rid),
          resp, brid⟩).1.reqFile =
        some (ReqFile.dict (some "add_numbers") args rid) ∧
      watchStep (watchStep ⟨some (ReqFile.dict (some "add_numbers") args rid),
          resp, brid⟩).1 =
        ((watchStep ⟨some (ReqFile.dict (some "add_numbers") args rid),
            resp, brid⟩).1,
         Outcome.dispatchError ⟨RVal.str e, rid, false⟩)) ∧
    (∀ resp : Option Response,
      watchStep ⟨some ReqFile.jsonNonDict, resp, none⟩ =
        (⟨some ReqFile.jsonNonDict, resp, none⟩, Outcome.preBindError none)) ∧
    (∀ (resp : Option Response) (rid0 : Option String),
      watchStep ⟨some ReqFile.jsonNonDict, resp, some rid0⟩ =
        (⟨some ReqFile.jsonNonDict,
          some ⟨RVal.str attrErrMsg, rid0, false⟩, some rid0⟩,
         Outcome.preBindError (some ⟨RVal.str attrErrMsg, rid0, false⟩))) ∧
    (∀ s : FileState, (watchStep s).1.boundRid = s.boundRid ∨
      ∃ fn args rid, s.reqFile = some (ReqFile.dict fn args rid) ∧
        (watchStep s).1.boundRid = some rid) := by
  refine ⟨?_, fun resp => rfl, fun resp rid0 => rfl, ?_⟩
  · intro resp brid args rid e herr
    constructor
    · simp [watchStep, herr]
    · simp [watchStep, herr]
  · intro s
    rcases s with ⟨req, resp, brid⟩
    cases req with
    | none => left; rfl
    | some rf =>
      cases rf with
      | whitespace => left; rfl
      | invalidJson => left; rfl
      | jsonNonDict => left; cases brid <;> rfl
      | dict fn args rid =>
        right
        refine ⟨fn, args, rid, rfl, ?_⟩
        unfold watchStep
        dsimp only
        split_ifs with hfn
        · cases h : add_numbers args <;> rfl
        · rfl

/-- Witness for C9 at concrete inputs: after a failing one-argument call,
the artifact survives and the next iteration reproduces the error; and a
later non-object artifact is answered with the stale id `r1`. -/
theorem undeleted_request_and_stale_id_witness :
    (watchStep ⟨some (ReqFile.dict (some "add_numbers") [PyArg.num 1]
        (some "r1")), none, none⟩).1.reqFile =
      some (ReqFile.dict (some "add_numbers") [PyArg.num 1] (some "r1")) ∧
    watchStep ⟨some ReqFile.jsonNonDict, none, some (some "r1")⟩ =
      (⟨some ReqFile.jsonNonDict,
        some ⟨RVal.str attrErrMsg, some "r1", false⟩, some (some "r1")⟩,
       Outcome.preBindError
         (some ⟨RVal.str attrErrMsg, some "r1", false⟩)) :=
  ⟨(undeleted_request_and_stale_id.1 none none [PyArg.num 1]
      (some "r1") _ rfl).1,
   undeleted_request_and_stale_id.2.2.1 none (some "r1")⟩

/-! ## Helper lemmas: discovery scan -/

lemma scanFile_noload (lo : PyPath → Bool) (root : PyPath) (st : ScanState)
    (f : PyPath) (h : lo f = false) : scanFile lo root st f = st := by
  unfold scanFile
  split_ifs with h1 h2 h3 <;> first | rfl | exact absurd h3 (by simp [h])

lemma scan_len (lo : PyPath → Bool) (root : PyPath) :
    ∀ (files : List PyPath) (st : ScanState),
      (files.foldl (scanFile lo root) st).discovered.length + st.count =
        st.discovered.length + (files.foldl (scanFile lo root) st).count := by
  intro files
  induction files with
  | nil => intro st; rfl
  | cons f rest ih =>
    intro st
    rw [List.foldl_cons]
    have hstep : (scanFile lo root st f).discovered.length + st.count =
        st.discovered.length + (scanFile lo root st f).count := by
      unfold scanFile
      split_ifs <;> simp
      omega
    have hrest := ih (scanFile lo root st f)
    omega

/-! ## Claim theorems: discovery scan -/

/-- C6: a unit whose load fails contributes nothing and stops nothing: the
scan of any file list containing it returns exactly what the scan of the
list without it returns, so every remaining unit is still processed, the
failing unit is not counted, and in general the returned count is exactly
the number of module identities newly added to the processed set. -/
theorem discovery_survives_bad_file :
    (∀ (loadOk : PyPath → Bool) (root : PyPath) (pre post : List PyPath)
        (bad : PyPath) (disc : List String),
      loadOk bad = false →
      scan_directory loadOk root (pre ++ bad :: post) disc =
        scan_directory loadOk root (pre ++ post) disc) ∧
    (∀ (loadOk : PyPath → Bool) (root : PyPath) (files : List PyPath)
        (disc : List String),
      (scan_directory loadOk root files disc).2.length =
        disc.length + (scan_directory loadOk root files disc).1) := by
  constructor
  · intro lo root pre post bad disc hbad
    unfold scan_directory
    rw [List.foldl_append, List.foldl_append, List.foldl_cons,
      scanFile_noload lo root _ bad hbad]
  · intro lo root files disc
    unfold scan_directory
    have := scan_len lo root files { discovered := disc, count := 0 }
    simpa using this

/-- Witness for C6 at a concrete input: a single always-failing unit makes
the scan return what the empty scan returns. -/
theorem discovery_survives_bad_file_witness :
    scan_directory (fun _ => false) [] ([] ++ ["bad.py"] :: []) [] =
      scan_directory (fun _ => false) [] ([] ++ []) [] :=
  discovery_survives_bad_file.1 (fun _ => false) [] [] [] ["bad.py"] [] rfl

/-- C7: for every enumerated file whose name carries the Python extension,
the scan's skip test agrees exactly with the specified exclusion list
(double-underscore names, the entry file, names containing the host
framework word case-insensitively, paths containing the capitalised host
framework word or the ephemeral marker); a skipped file changes nothing; a
surviving file whose derived module identity (from the path relative to
the scanned root) is already in the processed set is not loaded; one whose
identity is new and whose load succeeds is counted and its identity added
to the processed set after loading; and the post-scan report warns exactly
when the registry holds zero functions, with no failure (the scan is a
total function either way). -/
theorem scan_exclusions_and_processed_set :
    (∀ f : PyPath, pyEndsWith (fileName f) ".py" = true →
      skipFile f = skipFileSpec f) ∧
    (∀ (lo : PyPath → Bool) (root : PyPath) (st : ScanState) (f : PyPath),
      skipFile f = true → scanFile lo root st f = st) ∧
    (∀ (lo : PyPath → Bool) (root : PyPath) (st : ScanState) (f : PyPath),
      skipFile f = false →
      st.discovered.contains (moduleName root f) = true →
      scanFile lo root st f = st) ∧
    (∀ (lo : PyPath → Bool) (root : PyPath) (st : ScanState) (f : PyPath),
      skipFile f = false →
      st.discovered.contains (moduleName root f) = false →
      lo f = true →
      scanFile lo root st f =
        { discovered := st.discovered ++ [moduleName root f],
          count := st.count + 1 }) ∧
    (∀ n, discoveryWarns n = true ↔ n = 0) := by
  refine ⟨?_, ?_, ?_, ?_, ?_⟩
  · intro f h
    simp [skipFile, skipFileSpec, h]
  · intro lo root st f h
    unfold scanFile
    rw [h]
    simp
  · intro lo root st f h hmem
    unfold scanFile
    rw [h, hmem]
    simp
  · intro lo root st f h hmem hlo
    unfold scanFile
    rw [h, hmem, hlo]
    simp
  · intro n
    simp [discoveryWarns]

/-- Witness for C7 at a concrete input: the file `proj/a.py` is not
excluded, agrees with the specified exclusion list, and on a fresh
processed set is loaded, counted, and recorded under its derived identity. -/
theorem scan_exclusions_and_processed_set_witness :
    skipFile ["proj", "a.py"] = skipFileSpec ["proj", "a.py"] ∧
    scanFile (fun _ => true) ["proj"] ⟨[], 0⟩ ["proj", "a.py"] =
      { discovered := [] ++ [moduleName ["proj"] ["proj", "a.py"]],
        count := 0 + 1 } ∧
    (discoveryWarns 0 = true ↔ (0 : Nat) = 0) :=
  ⟨scan_exclusions_and_processed_set.1 ["proj", "a.py"] (by decide),
   scan_exclusions_and_processed_set.2.2.2.1 (fun _ => true) ["proj"]
     ⟨[], 0⟩ ["proj", "a.py"] (by decide) rfl rfl,
   scan_exclusions_and_processed_set.2.2.2.2 0⟩

/-- C10: the configured root list nests roots (the project root together
with its `my_py_codes`, `src` and `scripts` subdirectories), and the module
identity is relative to the root being scanned, so the single physical file
`proj/my_py_codes/foo.py` gets identity `my_py_codes.foo` under the project
root but identity `foo` under the `my_py_codes` root; scanning a filesystem
holding exactly that one file therefore loads it twice (count 2), firing
its top-level registration side effects twice. -/
theorem nested_roots_double_load :
    moduleName ["proj"] ["proj", "my_py_codes", "foo.py"] ≠
      moduleName ["proj", "my_py_codes"] ["proj", "my_py_codes", "foo.py"] ∧
    (["proj"] ∈ search_paths ["proj"] ∧
      ["proj", "my_py_codes"] ∈ search_paths ["proj"]) ∧
    discover (fun _ => true)
      (fun r => r == ["proj"] || r == ["proj", "my_py_codes"])
      (fun _ => [["proj", "my_py_codes", "foo.py"]])
      ["proj"] = (2, ["my_py_codes.foo", "foo"]) := by
  refine ⟨by decide, ⟨by decide, by decide⟩, by decide⟩

end KXBridge
